import Mathlib

/-!
Verification of the computational core of `sephora_analysis.py`
(`SephoraAnalyzer`): the embedded product dataset, the derived columns
(`value_score`, `price_range`), and the aggregation operations
(`summary_statistics`, `category_analysis`, `top_products`,
`price_analysis`, `generate_insights`).

Modelling conventions:
* Prices and review counts are integer literals in the source; they are
  embedded as `ℕ` and cast to `ℚ` where the source does arithmetic on them.
* Ratings are one-decimal literals in the source; they are embedded as the
  exact rationals those decimal literals denote.
* A pandas `Series.mean()` over zero rows yields NaN, a value, not an
  exception; NaN-able results are embedded as `Option ℚ` with `none`
  standing for NaN.
* Operations that raise in Python (`idxmax` on an empty frame,
  `mode()[0]` on an empty mode, integer division by a zero length) are
  embedded in `Except String`, the message recording the Python error.
-/

/-- One row of the `products` DataFrame built in
`SephoraAnalyzer.create_sample_data` (columns `product_name`, `brand`,
`category`, `price`, `rating`, `num_reviews`). -/
structure Product where
  product_name : String
  brand : String
  category : String
  price : ℕ
  rating : ℚ
  num_reviews : ℕ
deriving DecidableEq, Repr

/-- The `price` column viewed as a rational number, as pandas does when it
mixes the integer column into rational arithmetic. -/
def Product.priceQ (p : Product) : ℚ := (p.price : ℚ)

/-- Derived column `df['value_score'] = df['rating'] / (df['price'] / 10)`
(source line 104). -/
def Product.value_score (p : Product) : ℚ := p.rating / (p.priceQ / 10)

/-- The four labels of `pd.cut(df['price'], bins=[0, 20, 40, 70, 200],
labels=['Budget', 'Mid-Range', 'Premium', 'Luxury'])`. -/
inductive PriceBucket where
  | Budget
  | MidRange
  | Premium
  | Luxury
deriving DecidableEq, Repr

/-- Derived column `price_range` (source lines 105-107):
`pd.cut` with `bins=[0, 20, 40, 70, 200]` and the default `right=True`,
i.e. the right-closed intervals (0,20], (20,40], (40,70], (70,200];
a value outside every bin becomes NaN, embedded as `none`. -/
def priceRange (price : ℚ) : Option PriceBucket :=
  if 0 < price ∧ price ≤ 20 then some .Budget
  else if 20 < price ∧ price ≤ 40 then some .MidRange
  else if 40 < price ∧ price ≤ 70 then some .Premium
  else if 70 < price ∧ price ≤ 200 then some .Luxury
  else none

/-- `priceRange` restricted to the natural-number prices actually stored in
the `price` column; agrees with `priceRange` on the cast (see
`priceRange_natCast`). -/
def priceRangeN (price : ℕ) : Option PriceBucket :=
  if 0 < price ∧ price ≤ 20 then some .Budget
  else if 20 < price ∧ price ≤ 40 then some .MidRange
  else if 40 < price ∧ price ≤ 70 then some .Premium
  else if 70 < price ∧ price ≤ 200 then some .Luxury
  else none

/-- The `price_range` column of a row. -/
def Product.price_range (p : Product) : Option PriceBucket := priceRange p.priceQ

/-- `product_name` column literal (source lines 34-48). -/
def col_product_name : List String :=
  ["Fenty Beauty Foundation", "Fenty Beauty Lipgloss", "Fenty Beauty Highlighter",
   "Rare Beauty Blush", "Rare Beauty Concealer", "Charlotte Tilbury Mascara",
   "Charlotte Tilbury Foundation", "Dior Lipstick", "Dior Foundation",
   "The Ordinary Serum", "The Ordinary Moisturizer", "The Ordinary Retinol",
   "Drunk Elephant Moisturizer", "Urban Decay Eyeshadow", "Urban Decay Primer",
   "Huda Beauty Palette", "Huda Beauty Lipstick", "MAC Lipstick",
   "MAC Foundation", "MAC Powder", "NARS Blush", "NARS Concealer",
   "Too Faced Primer", "Too Faced Mascara", "Benefit Brow Pencil",
   "Tarte Concealer", "Tarte Foundation", "Anastasia Brow Gel",
   "Anastasia Palette", "La Mer Cream", "Tatcha Cleanser",
   "YSL Lipstick", "Clinique Moisturizer", "Hourglass Foundation",
   "Pat McGrath Lipstick", "Laura Mercier Powder", "Bobbi Brown Concealer",
   "Tom Ford Lipstick", "Estee Lauder Serum", "NARS Lipstick"]

/-- `brand` column literal (source lines 49-63). -/
def col_brand : List String :=
  ["Fenty Beauty", "Fenty Beauty", "Fenty Beauty",
   "Rare Beauty", "Rare Beauty", "Charlotte Tilbury",
   "Charlotte Tilbury", "Dior", "Dior",
   "The Ordinary", "The Ordinary", "The Ordinary",
   "Drunk Elephant", "Urban Decay", "Urban Decay",
   "Huda Beauty", "Huda Beauty", "MAC",
   "MAC", "MAC", "NARS", "NARS",
   "Too Faced", "Too Faced", "Benefit",
   "Tarte", "Tarte", "Anastasia",
   "Anastasia", "La Mer", "Tatcha",
   "YSL", "Clinique", "Hourglass",
   "Pat McGrath", "Laura Mercier", "Bobbi Brown",
   "Tom Ford", "Estee Lauder", "NARS"]

/-- `category` column literal (source lines 64-77). -/
def col_category : List String :=
  ["Face", "Lips", "Face",
   "Face", "Face", "Eyes", "Face", "Lips", "Face",
   "Skincare", "Skincare", "Skincare",
   "Skincare", "Eyes", "Face",
   "Eyes", "Lips", "Lips",
   "Face", "Face", "Face", "Face",
   "Face", "Eyes", "Eyes",
   "Face", "Face", "Eyes",
   "Eyes", "Skincare", "Skincare",
   "Lips", "Skincare", "Face",
   "Lips", "Face", "Face",
   "Lips", "Skincare", "Lips"]

/-- `price` column literal (source lines 78-84). -/
def col_price : List ℕ :=
  [38, 20, 32, 23, 27, 29, 44, 42, 52,
   7, 9, 12, 68, 54, 35, 67, 29, 20,
   39, 32, 32, 31, 34, 26, 24,
   29, 41, 23, 49, 185, 35,
   39, 31, 49, 40, 41, 32, 57, 78, 28]

/-- `rating` column literal (source lines 85-91), embedded as exact
rationals. -/
def col_rating : List ℚ :=
  [4.5, 4.4, 4.6, 4.7, 4.5, 4.3, 4.5, 4.6, 4.4,
   4.4, 4.3, 4.5, 4.2, 4.5, 4.4, 4.8, 4.3, 4.4,
   4.5, 4.4, 4.6, 4.5, 4.3, 4.4, 4.5,
   4.4, 4.5, 4.7, 4.6, 4.1, 4.5,
   4.5, 4.3, 4.6, 4.4, 4.5, 4.5, 4.3, 4.2, 4.6]

/-- `num_reviews` column literal (source lines 92-98). -/
def col_num_reviews : List ℕ :=
  [15234, 9845, 7651, 8901, 6234, 6543, 8932, 4231, 5678,
   12045, 8934, 9123, 5678, 9876, 7234, 11234, 5432, 7890,
   10234, 6543, 6789, 7456, 5432, 6789, 8765,
   9012, 7890, 10123, 8456, 3456, 7654,
   5678, 6543, 8901, 7234, 6543, 7890, 4567, 5678, 5234]

/-- Zip the six column literals into rows, mirroring
`pd.DataFrame(products)`. -/
def buildRows : List String → List String → List String → List ℕ → List ℚ → List ℕ → List Product
  | n :: ns, b :: bs, c :: cs, p :: ps, r :: rs, v :: vs =>
      ⟨n, b, c, p, r, v⟩ :: buildRows ns bs cs ps rs vs
  | _, _, _, _, _, _ => []

/-- The catalog produced by `create_sample_data`, row by row. -/
def sephoraRows : List Product :=
  buildRows col_product_name col_brand col_category col_price col_rating col_num_reviews

example : sephoraRows.length = 40 := by decide
example : (sephoraRows.map Product.price).sum = 1583 := by decide

/-- `Series.mean()`: the arithmetic mean, NaN (`none`) over zero rows. -/
def pandasMean (l : List ℚ) : Option ℚ :=
  if l = [] then none else some (l.sum / l.length)

/-- Arithmetic mean as a bare rational; only applied to lists known to be
non-empty. -/
def meanQ (l : List ℚ) : ℚ := l.sum / l.length

/-- `Series.idxmax()` / `nlargest(1, ...)`: the first element attaining the
maximum of `f`, `none` over zero rows.  The fold replaces the current best
only on a strict increase, so earlier rows win ties, matching pandas'
"first occurrence of maximum". -/
def argmaxF {α β : Type _} [LinearOrder β] (f : α → β) : List α → Option α
  | [] => none
  | x :: xs => some (xs.foldl (fun b y => if f b < f y then y else b) x)

/-- `Series.min()`: NaN (`none`) over zero rows. -/
def listMinQ : List ℚ → Option ℚ
  | [] => none
  | x :: xs => some (xs.foldl min x)

/-- `Series.max()`: NaN (`none`) over zero rows. -/
def listMaxQ : List ℚ → Option ℚ
  | [] => none
  | x :: xs => some (xs.foldl max x)

/-- Insertion of a rational into a sorted list (ascending). -/
def insertQ (x : ℚ) : List ℚ → List ℚ
  | [] => [x]
  | y :: ys => if x ≤ y then x :: y :: ys else y :: insertQ x ys

/-- Ascending insertion sort of rationals, used to model `Series.median()`. -/
def sortQ : List ℚ → List ℚ
  | [] => []
  | x :: xs => insertQ x (sortQ xs)

/-- `Series.median()`: the middle of the sorted values (mean of the two
middles for an even length), NaN (`none`) over zero rows. -/
def pandasMedian (l : List ℚ) : Option ℚ :=
  if l = [] then none
  else
    some ((((sortQ l).getD ((l.length - 1) / 2) 0) + ((sortQ l).getD (l.length / 2) 0)) / 2)

/-- Python string order (code-point lexicographic), the order pandas sorts
labels by. -/
def strLe (a b : String) : Prop := a.data ≤ b.data

instance : DecidableRel strLe := fun a b => inferInstanceAs (Decidable (a.data ≤ b.data))

/-- Strict code-point order on strings. -/
def strLt (a b : String) : Prop := strLe a b ∧ ¬(a = b)

instance : DecidableRel strLt := fun a b =>
  @instDecidableAnd (strLe a b) (¬(a = b)) (inferInstanceAs (Decidable (strLe a b)))
    (@instDecidableNot (a = b) (String.decEq a b))

/-- Insertion of a string into a list sorted by `strLe`. -/
def insertStr (x : String) : List String → List String
  | [] => [x]
  | y :: ys => if strLe x y then x :: y :: ys else y :: insertStr x ys

/-- Ascending sort of strings by `strLe`, modelling pandas' sorted label
axes (`groupby(sort=True)`, `Series.mode()`). -/
def sortStrs : List String → List String
  | [] => []
  | x :: xs => insertStr x (sortStrs xs)

/-- The distinct values of a column in order of first appearance. -/
def distinctInOrder : List String → List String
  | [] => []
  | x :: xs => x :: (distinctInOrder xs).filter (fun y => y ≠ x)

/-- Number of occurrences of a value in a column. -/
def countOccur (l : List String) (c : String) : ℕ :=
  (l.filter (fun x => x = c)).length

/-- The key axis of `df.groupby('category')`: pandas sorts the distinct
group keys (default `sort=True`), so the groups are iterated in ascending
lexicographic order, not first-appearance order. -/
def groupbyKeys (l : List String) : List String := sortStrs (distinctInOrder l)

/-- `Series.mode()`: the values of maximal frequency, sorted ascending. -/
def seriesMode (l : List String) : List String :=
  (groupbyKeys l).filter
    (fun c => (groupbyKeys l).all (fun c2 => countOccur l c2 ≤ countOccur l c))

/-- The result record of `summary_statistics` (source lines 111-140):
the printed statistics plus the `idxmax` rows.  NaN-able aggregates are
`Option ℚ`. -/
structure SummaryReport where
  count : ℕ
  meanPrice : Option ℚ
  medianPrice : Option ℚ
  minPrice : Option ℚ
  maxPrice : Option ℚ
  meanRating : Option ℚ
  medianRating : Option ℚ
  minRating : Option ℚ
  maxRating : Option ℚ
  totalReviews : ℕ
  meanReviews : Option ℚ
  mostExpensive : Product
  bestValue : Product
deriving Repr

/-- `SephoraAnalyzer.summary_statistics` (source lines 111-140).  The means,
medians, mins and maxes are NaN over an empty frame; the two `idxmax`
calls (lines 133-134) raise `ValueError` on an empty frame, which is the
only failure path — there is no `EmptyCatalogError` anywhere in the
source. -/
def summary_statistics (rows : List Product) : Except String SummaryReport :=
  match argmaxF Product.priceQ rows, argmaxF Product.value_score rows with
  | some me, some bv =>
      .ok
        { count := rows.length
          meanPrice := pandasMean (rows.map Product.priceQ)
          medianPrice := pandasMedian (rows.map Product.priceQ)
          minPrice := listMinQ (rows.map Product.priceQ)
          maxPrice := listMaxQ (rows.map Product.priceQ)
          meanRating := pandasMean (rows.map Product.rating)
          medianRating := pandasMedian (rows.map Product.rating)
          minRating := listMinQ (rows.map Product.rating)
          maxRating := listMaxQ (rows.map Product.rating)
          totalReviews := (rows.map Product.num_reviews).sum
          meanReviews := pandasMean (rows.map (fun p => (p.num_reviews : ℚ)))
          mostExpensive := me
          bestValue := bv }
  | _, _ => .error "ValueError: attempt to get argmax of an empty sequence"

/-- One row of the `category_stats` table of `category_analysis`
(source lines 148-152): per category, count/mean/min/max of price, mean
rating and summed reviews. -/
structure CategoryRow where
  category : String
  count : ℕ
  meanPrice : Option ℚ
  minPrice : Option ℚ
  maxPrice : Option ℚ
  meanRating : Option ℚ
  sumReviews : ℕ
deriving Repr

/-- The rows of the `category_stats` table, iterated in the order pandas'
`groupby` yields them: the ascending lexicographic order of the distinct
categories. -/
def category_table (rows : List Product) : List CategoryRow :=
  (groupbyKeys (rows.map Product.category)).map fun c =>
    let g := rows.filter (fun p => p.category = c)
    { category := c
      count := g.length
      meanPrice := pandasMean (g.map Product.priceQ)
      minPrice := listMinQ (g.map Product.priceQ)
      maxPrice := listMaxQ (g.map Product.priceQ)
      meanRating := pandasMean (g.map Product.rating)
      sumReviews := (g.map Product.num_reviews).sum }

/-- `self.data['category'].value_counts().idxmax()` (source line 158): a
category of maximal count.  `value_counts` orders by descending count; how
it orders equal counts is not part of its contract, so ties here are
modelled as broken by first appearance; on the embedded dataset the
maximum is strict and the tie-break is never exercised. -/
def most_products (rows : List Product) : Option String :=
  argmaxF (countOccur (rows.map Product.category)) (distinctInOrder (rows.map Product.category))

/-- `self.data.groupby('category')['rating'].mean().idxmax()` (source line
162): the first category attaining the maximal mean rating, taken in the
sorted key order of `groupby` — so ties break alphabetically, not by first
appearance. -/
def highest_rated_category (rows : List Product) : Option String :=
  argmaxF (fun c => meanQ ((rows.filter (fun p => p.category = c)).map Product.rating))
    (groupbyKeys (rows.map Product.category))

/-- The correlation commentary of `price_analysis` (source lines 201-202):
the code prints a verdict only in the `abs(correlation) < 0.3` branch;
there is no moderate/strong classification. -/
def correlationVerdict (corr : ℚ) : Option String :=
  if |corr| < 0.3 then some "weak" else none

/-- Count of catalog rows landing in a given `price_range` bucket, as
tallied by `price_analysis` (source lines 192-196). -/
def bucketCount (rows : List Product) (b : PriceBucket) : ℕ :=
  (rows.filter (fun p => priceRangeN p.price = some b)).length

/-- The percentage `price_analysis` prints for a bucket:
`count / len(self.data) * 100`. -/
def bucketPercent (rows : List Product) (b : PriceBucket) : ℚ :=
  (bucketCount rows b : ℚ) / (rows.length : ℚ) * 100

/-- Tie-break order used by `top_products`' calls to `nlargest`: descending
in the key, with earlier catalog positions first among equal keys
(pandas `nlargest` default `keep='first'`). -/
def keyRel (f : Product → ℚ) (a b : ℕ × Product) : Prop :=
  f b.2 < f a.2 ∨ (f a.2 = f b.2 ∧ a.1 ≤ b.1)

instance (f : Product → ℚ) : DecidableRel (keyRel f) := fun _ _ =>
  inferInstanceAs (Decidable (_ ∨ _))

/-- `self.data.nlargest(n, column)` (source lines 172, 177, 182): the rows
paired with their positional index, stably sorted descending by the column
and truncated to `n`. -/
def nlargest (n : ℕ) (f : Product → ℚ) (rows : List Product) : List (ℕ × Product) :=
  (List.insertionSort (keyRel f) rows.enum).take n

/-- The result record of `generate_insights` (source lines 294-331).
Subset means are NaN (`none`) when the matching subset is empty — the code
has no empty-subset guard and no "no data" report. -/
structure InsightReport where
  expensiveAvgRating : Option ℚ
  affordableAvgRating : Option ℚ
  skincareAvgPrice : Option ℚ
  makeupAvgPrice : Option ℚ
  higherPriced : String
  sweetSpotCount : ℕ
  sweetSpotShare : ℚ
  sweetSpotAvgRating : Option ℚ
  highRatedCount : ℕ
  highRatedAvgPrice : Option ℚ
  highRatedModalCategory : String
deriving Repr

/-- The comparison `'Skincare' if skincare_avg > makeup_avg else 'Makeup'`
(source line 317).  In Python any comparison against NaN is false, so a
NaN operand selects `'Makeup'`. -/
def higherPricedSide (skincareAvg makeupAvg : Option ℚ) : String :=
  match skincareAvg, makeupAvg with
  | some s, some m => if m < s then "Skincare" else "Makeup"
  | _, _ => "Makeup"

/-- `SephoraAnalyzer.generate_insights` (source lines 294-331).  Two
failure paths exist, both unguarded: `len(sweet_spot)/len(self.data)`
(line 322) divides by zero on an empty catalog, and
`high_rated['category'].mode()[0]` (line 331) indexes an empty mode when no
row is rated ≥ 4.5.  Empty subsets otherwise flow through as NaN means. -/
def generate_insights (rows : List Product) : Except String InsightReport :=
  let expensive := rows.filter (fun p => 50 < p.price)
  let affordable := rows.filter (fun p => p.price ≤ 30)
  let skincare := rows.filter (fun p => p.category = "Skincare")
  let makeup := rows.filter (fun p => p.category = "Face" ∨ p.category = "Eyes" ∨ p.category = "Lips")
  let sweet := rows.filter (fun p => 20 ≤ p.price ∧ p.price ≤ 40)
  if rows.length = 0 then .error "ZeroDivisionError: division by zero"
  else
    let high := rows.filter (fun p => (4.5 : ℚ) ≤ p.rating)
    match (seriesMode (high.map Product.category)).head? with
    | none => .error "KeyError: 0"
    | some mc =>
        .ok
          { expensiveAvgRating := pandasMean (expensive.map Product.rating)
            affordableAvgRating := pandasMean (affordable.map Product.rating)
            skincareAvgPrice := pandasMean (skincare.map Product.priceQ)
            makeupAvgPrice := pandasMean (makeup.map Product.priceQ)
            higherPriced := higherPricedSide (pandasMean (skincare.map Product.priceQ)) (pandasMean (makeup.map Product.priceQ))
            sweetSpotCount := sweet.length
            sweetSpotShare := (sweet.length : ℚ) / (rows.length : ℚ) * 100
            sweetSpotAvgRating := pandasMean (sweet.map Product.rating)
            highRatedCount := high.length
            highRatedAvgPrice := pandasMean (high.map Product.priceQ)
            highRatedModalCategory := mc }

/-- Modelled from the spec: the `DivisionGuardError` clause — a value-score
computation that maps a zero price to an explicit undefined sentinel
instead of dividing.  No such guard exists in the source; this definition
exists to be compared with `Product.value_score`. -/
def value_score_guarded (rating price : ℚ) : Option ℚ :=
  if price = 0 then none else some (rating / (price / 10))

/-- "≈ x" for a quantity the report prints to two decimals: within half a
unit of the last printed digit. -/
def approx2 (x target : ℚ) : Prop := |x - target| ≤ 1 / 200

section Helpers

variable {α : Type _} {β : Type _} [LinearOrder β]

theorem priceRange_natCast (n : ℕ) : priceRange (n : ℚ) = priceRangeN n := by
  have h1 : (0 < (n : ℚ) ∧ (n : ℚ) ≤ 20) ↔ (0 < n ∧ n ≤ 20) := by
    constructor <;> exact fun h => ⟨by exact_mod_cast h.1, by exact_mod_cast h.2⟩
  have h2 : (20 < (n : ℚ) ∧ (n : ℚ) ≤ 40) ↔ (20 < n ∧ n ≤ 40) := by
    constructor <;> exact fun h => ⟨by exact_mod_cast h.1, by exact_mod_cast h.2⟩
  have h3 : (40 < (n : ℚ) ∧ (n : ℚ) ≤ 70) ↔ (40 < n ∧ n ≤ 70) := by
    constructor <;> exact fun h => ⟨by exact_mod_cast h.1, by exact_mod_cast h.2⟩
  have h4 : (70 < (n : ℚ) ∧ (n : ℚ) ≤ 200) ↔ (70 < n ∧ n ≤ 200) := by
    constructor <;> exact fun h => ⟨by exact_mod_cast h.1, by exact_mod_cast h.2⟩
  simp only [priceRange, priceRangeN, h1, h2, h3, h4]

theorem price_range_eq_priceRangeN (p : Product) : p.price_range = priceRangeN p.price :=
  priceRange_natCast p.price

theorem argmaxF_eq_none {f : α → β} {l : List α} : argmaxF f l = none ↔ l = [] := by
  cases l <;> simp [argmaxF]

theorem foldl_argmax_mem (f : α → β) :
    ∀ (xs : List α) (x : α), xs.foldl (fun b y => if f b < f y then y else b) x ∈ x :: xs := by
  intro xs
  induction xs with
  | nil => intro x; simp
  | cons y ys ih =>
      intro x
      have h := ih (if f x < f y then y else x)
      rcases List.mem_cons.mp h with h' | h'
      · by_cases hxy : f x < f y
        · simp only [List.foldl_cons, h']; simp [hxy]
        · simp only [List.foldl_cons, h']; simp [hxy]
      · exact List.mem_cons_of_mem _ (List.mem_cons_of_mem _ h')

theorem foldl_argmax_le (f : α → β) :
    ∀ (xs : List α) (x : α) (a : α), a ∈ x :: xs →
      f a ≤ f (xs.foldl (fun b y => if f b < f y then y else b) x) := by
  intro xs
  induction xs with
  | nil => intro x a ha; simp at ha; subst ha; simp
  | cons y ys ih =>
      intro x a ha
      simp only [List.foldl_cons]
      have hx : f x ≤ f (if f x < f y then y else x) := by
        by_cases hxy : f x < f y <;> simp [hxy, le_of_lt]
      have hy : f y ≤ f (if f x < f y then y else x) := by
        by_cases hxy : f x < f y <;> simp [hxy, le_of_not_lt]
      rcases List.mem_cons.mp ha with rfl | ha'
      · exact le_trans hx (ih _ _ (List.mem_cons_self _ _))
      · rcases List.mem_cons.mp ha' with rfl | ha'
        · exact le_trans hy (ih _ _ (List.mem_cons_self _ _))
        · exact ih _ _ (List.mem_cons_of_mem _ ha')

theorem argmaxF_mem {f : α → β} {l : List α} {b : α} (h : argmaxF f l = some b) : b ∈ l := by
  cases l with
  | nil => simp [argmaxF] at h
  | cons x xs =>
      simp only [argmaxF, Option.some.injEq] at h
      exact h ▸ foldl_argmax_mem f xs x

theorem argmaxF_is_max {f : α → β} {l : List α} {b : α} (h : argmaxF f l = some b) :
    ∀ a ∈ l, f a ≤ f b := by
  cases l with
  | nil => simp
  | cons x xs =>
      simp only [argmaxF, Option.some.injEq] at h
      exact fun a ha => h ▸ foldl_argmax_le f xs x a ha

theorem pandasMean_eq_none {l : List ℚ} : pandasMean l = none ↔ l = [] := by
  by_cases h : l = [] <;> simp [pandasMean, h]

theorem insertStr_ne_nil (x : String) (l : List String) : insertStr x l ≠ [] := by
  cases l with
  | nil => simp [insertStr]
  | cons y ys =>
      by_cases h : strLe x y <;> simp [insertStr, h]

theorem sortStrs_ne_nil {l : List String} (h : l ≠ []) : sortStrs l ≠ [] := by
  cases l with
  | nil => exact absurd rfl h
  | cons x xs => exact insertStr_ne_nil x (sortStrs xs)

theorem distinctInOrder_ne_nil {l : List String} (h : l ≠ []) : distinctInOrder l ≠ [] := by
  cases l with
  | nil => exact absurd rfl h
  | cons x xs => simp [distinctInOrder]

theorem groupbyKeys_ne_nil {l : List String} (h : l ≠ []) : groupbyKeys l ≠ [] :=
  sortStrs_ne_nil (distinctInOrder_ne_nil h)

theorem exists_count_max (g : String → ℕ) :
    ∀ (d : List String), d ≠ [] → ∃ c ∈ d, ∀ c2 ∈ d, g c2 ≤ g c := by
  intro d
  induction d with
  | nil => intro h; exact absurd rfl h
  | cons x xs ih =>
      intro _
      cases xs with
      | nil => exact ⟨x, List.mem_cons_self _ _, by simp⟩
      | cons y ys =>
          obtain ⟨c, hc, hmax⟩ := ih (by simp)
          by_cases hcmp : g x ≤ g c
          · exact ⟨c, List.mem_cons_of_mem _ hc, by
              intro c2 hc2
              rcases List.mem_cons.mp hc2 with rfl | h2
              · exact hcmp
              · exact hmax c2 h2⟩
          · exact ⟨x, List.mem_cons_self _ _, by
              intro c2 hc2
              rcases List.mem_cons.mp hc2 with rfl | h2
              · exact le_refl _
              · exact le_trans (hmax c2 h2) (le_of_not_le hcmp)⟩

theorem seriesMode_ne_nil {l : List String} (h : l ≠ []) : seriesMode l ≠ [] := by
  obtain ⟨c, hc, hmax⟩ := exists_count_max (countOccur l) (groupbyKeys l) (groupbyKeys_ne_nil h)
  have hmem : c ∈ seriesMode l := by
    refine List.mem_filter.mpr ⟨hc, ?_⟩
    refine List.all_eq_true.mpr ?_
    intro c2 hc2
    exact decide_eq_true (hmax c2 hc2)
  exact List.ne_nil_of_mem hmem

theorem seriesMode_nil : seriesMode [] = [] := rfl

end Helpers

section PriceRangeRegions

variable {price : ℚ}

theorem priceRange_nonpos (h : price ≤ 0) : priceRange price = none := by
  have n1 : ¬(0 < price ∧ price ≤ 20) := fun hc => by linarith [hc.1]
  have n2 : ¬(20 < price ∧ price ≤ 40) := fun hc => by linarith [hc.1]
  have n3 : ¬(40 < price ∧ price ≤ 70) := fun hc => by linarith [hc.1]
  have n4 : ¬(70 < price ∧ price ≤ 200) := fun hc => by linarith [hc.1]
  simp [priceRange, n1, n2, n3, n4]

theorem priceRange_budget (h1 : 0 < price) (h2 : price ≤ 20) :
    priceRange price = some PriceBucket.Budget := by
  simp [priceRange, h1, h2]

theorem priceRange_mid (h1 : 20 < price) (h2 : price ≤ 40) :
    priceRange price = some PriceBucket.MidRange := by
  have n1 : ¬(0 < price ∧ price ≤ 20) := fun hc => by linarith [hc.2]
  simp [priceRange, n1, h1, h2]

theorem priceRange_premium (h1 : 40 < price) (h2 : price ≤ 70) :
    priceRange price = some PriceBucket.Premium := by
  have n1 : ¬(0 < price ∧ price ≤ 20) := fun hc => by linarith [hc.2]
  have n2 : ¬(20 < price ∧ price ≤ 40) := fun hc => by linarith [hc.2]
  simp [priceRange, n1, n2, h1, h2]

theorem priceRange_luxury (h1 : 70 < price) (h2 : price ≤ 200) :
    priceRange price = some PriceBucket.Luxury := by
  have n1 : ¬(0 < price ∧ price ≤ 20) := fun hc => by linarith [hc.2]
  have n2 : ¬(20 < price ∧ price ≤ 40) := fun hc => by linarith [hc.2]
  have n3 : ¬(40 < price ∧ price ≤ 70) := fun hc => by linarith [hc.2]
  simp [priceRange, n1, n2, n3, h1, h2]

theorem priceRange_over (h : 200 < price) : priceRange price = none := by
  have n1 : ¬(0 < price ∧ price ≤ 20) := fun hc => by linarith [hc.2]
  have n2 : ¬(20 < price ∧ price ≤ 40) := fun hc => by linarith [hc.2]
  have n3 : ¬(40 < price ∧ price ≤ 70) := fun hc => by linarith [hc.2]
  have n4 : ¬(70 < price ∧ price ≤ 200) := fun hc => by linarith [hc.2]
  simp [priceRange, n1, n2, n3, n4]

end PriceRangeRegions

/-- C2: `price_range` is assigned by the right-inclusive intervals of
`pd.cut(bins=[0, 20, 40, 70, 200])`: (0,20] is Budget, (20,40] Mid-Range,
(40,70] Premium, (70,200] Luxury; the boundaries 20, 40 and 70 land in the
lower bucket, and a price of exactly 0 or above 200 is unbucketed (NaN,
embedded `none`) rather than matching any bin. -/
theorem priceRange_bucket_spec :
    priceRange 20 = some PriceBucket.Budget ∧
    priceRange 40 = some PriceBucket.MidRange ∧
    priceRange 70 = some PriceBucket.Premium ∧
    priceRange 0 = none ∧
    ∀ price : ℚ,
      (0 < price ∧ price ≤ 20 → priceRange price = some PriceBucket.Budget) ∧
      (20 < price ∧ price ≤ 40 → priceRange price = some PriceBucket.MidRange) ∧
      (40 < price ∧ price ≤ 70 → priceRange price = some PriceBucket.Premium) ∧
      (70 < price ∧ price ≤ 200 → priceRange price = some PriceBucket.Luxury) ∧
      (price ≤ 0 → priceRange price = none) ∧
      (200 < price → priceRange price = none) := by
  refine ⟨priceRange_budget (by norm_num) (by norm_num),
    priceRange_mid (by norm_num) (by norm_num),
    priceRange_premium (by norm_num) (by norm_num),
    priceRange_nonpos (by norm_num), ?_⟩
  intro price
  exact ⟨fun h => priceRange_budget h.1 h.2, fun h => priceRange_mid h.1 h.2,
    fun h => priceRange_premium h.1 h.2, fun h => priceRange_luxury h.1 h.2,
    fun h => priceRange_nonpos h, fun h => priceRange_over h⟩

/-- Witness for `priceRange_bucket_spec`: the interval clauses applied at
concrete prices. -/
theorem priceRange_bucket_spec_witness :
    priceRange 35 = some PriceBucket.MidRange ∧ priceRange 300 = none :=
  ⟨(priceRange_bucket_spec.2.2.2.2 35).2.1 ⟨by norm_num, by norm_num⟩,
   (priceRange_bucket_spec.2.2.2.2 300).2.2.2.2.2 (by norm_num)⟩

/-- C4 counterexample: the source prints a correlation verdict only in the
`abs(correlation) < 0.3` branch (lines 201-202); at correlation values 0.5
and 0.9 — where the spec demands "moderate" and "strong" — no verdict at
all is produced. -/
theorem correlationVerdict_no_moderate_strong :
    correlationVerdict (1/2) = none ∧ correlationVerdict (9/10) = none := by
  have h1 : |(1:ℚ)/2| = 1/2 := abs_of_pos (by norm_num)
  have h2 : |(9:ℚ)/10| = 9/10 := abs_of_pos (by norm_num)
  constructor
  · rw [correlationVerdict, h1, if_neg (by norm_num)]
  · rw [correlationVerdict, h2, if_neg (by norm_num)]

/-- C4 amended: `price_analysis` classifies the price-rating correlation
with a single one-sided check — "weak" exactly when `|corr| < 0.3`, and no
verdict otherwise; verdicts "moderate" and "strong" are never produced. -/
theorem correlationVerdict_weak_only (corr : ℚ) :
    (correlationVerdict corr = some "weak" ↔ |corr| < 0.3) ∧
    (correlationVerdict corr = none ↔ 0.3 ≤ |corr|) ∧
    correlationVerdict corr ≠ some "moderate" ∧
    correlationVerdict corr ≠ some "strong" := by
  unfold correlationVerdict
  by_cases h : |corr| < 0.3
  · rw [if_pos h]
    refine ⟨by simp [h], by simp [h, not_le.mpr h], by simp, by simp⟩
  · rw [if_neg h]
    refine ⟨by simp [h], by simp [not_lt.mp h], by simp, by simp⟩

/-- C6 counterexample: over zero rows the aggregates do not raise any
`EmptyCatalogError` — `Series.mean()` and `Series.median()` return NaN
(an undefined value, embedded `none`), and `summary_statistics` fails only
at the unguarded `idxmax` with a pandas `ValueError`. -/
theorem empty_catalog_no_EmptyCatalogError :
    pandasMean ([] : List ℚ) = none ∧
    pandasMedian ([] : List ℚ) = none ∧
    summary_statistics [] = Except.error "ValueError: attempt to get argmax of an empty sequence" ∧
    "ValueError: attempt to get argmax of an empty sequence" ≠ "EmptyCatalogError" := by
  exact ⟨rfl, rfl, rfl, by decide⟩

/-- C6 amended: on a catalog with zero rows `summary_statistics` does fail,
but with the pandas `ValueError` of the unguarded `idxmax` — no
`EmptyCatalogError` exists in the source — and that is its only failure
mode;  the mean aggregate over zero rows evaluates to NaN (`none`), an
undefined value, instead of raising. -/
theorem summary_statistics_empty_behaviour (rows : List Product) :
    (summary_statistics rows =
        Except.error "ValueError: attempt to get argmax of an empty sequence" ↔ rows = []) ∧
    (pandasMean (rows.map Product.priceQ) = none ↔ rows = []) ∧
    (pandasMean (rows.map Product.rating) = none ↔ rows = []) := by
  refine ⟨?_, ?_, ?_⟩
  · cases rows with
    | nil => simp [summary_statistics, argmaxF]
    | cons x xs => simp [summary_statistics, argmaxF]
  · rw [pandasMean_eq_none, List.map_eq_nil_iff]
  · rw [pandasMean_eq_none, List.map_eq_nil_iff]

/-- The row of the embedded catalog used to probe per-row facts. -/
def theOrdinarySerum : Product :=
  ⟨"The Ordinary Serum", "The Ordinary", "Skincare", 7, 4.4, 12045⟩

/-- A probe row with a zero price, for exercising the value-score
computation where the spec demands a division guard. -/
def probeZeroPrice : Product := ⟨"probe", "no brand", "Face", 0, 4.4, 0⟩

/-- C7 counterexample: the source computes `value_score` by the bare
division of line 104, with no zero-price branch; at a zero price it still
produces a value (an IEEE infinity in the float source, a total division
in this rational model) instead of the explicit undefined sentinel the
spec's `DivisionGuardError` clause demands. -/
theorem value_score_not_guarded_at_zero :
    value_score_guarded probeZeroPrice.rating probeZeroPrice.priceQ = none ∧
    some probeZeroPrice.value_score ≠
      value_score_guarded probeZeroPrice.rating probeZeroPrice.priceQ := by
  have h : probeZeroPrice.priceQ = 0 := by norm_num [Product.priceQ, probeZeroPrice]
  rw [h]
  constructor
  · simp [value_score_guarded]
  · simp [value_score_guarded]

/-- C7 amended: for every row of the embedded catalog `value_score` equals
`rating / (price / 10)` and the price is positive, so the division is
defined (`value_score * (price / 10)` recovers the rating); the
computation itself carries no zero-price guard. -/
theorem value_score_defined_on_catalog :
    ∀ p ∈ sephoraRows,
      0 < p.price ∧ p.priceQ / 10 ≠ 0 ∧ p.value_score * (p.priceQ / 10) = p.rating := by
  have hpos : ∀ p ∈ sephoraRows, 0 < p.price := by decide
  intro p hp
  have h1 := hpos p hp
  have h2 : (0 : ℚ) < p.priceQ := by
    rw [Product.priceQ]; exact_mod_cast h1
  have h3 : p.priceQ / 10 ≠ 0 := div_ne_zero (ne_of_gt h2) (by norm_num)
  exact ⟨h1, h3, div_mul_cancel₀ p.rating h3⟩

/-- Witness for `value_score_defined_on_catalog` at the "The Ordinary
Serum" row. -/
theorem value_score_defined_on_catalog_witness :
    0 < theOrdinarySerum.price ∧ theOrdinarySerum.priceQ / 10 ≠ 0 ∧
      theOrdinarySerum.value_score * (theOrdinarySerum.priceQ / 10) = theOrdinarySerum.rating := by
  refine value_score_defined_on_catalog theOrdinarySerum ?_
  simp only [sephoraRows, buildRows, col_product_name, col_brand, col_category, col_price,
    col_rating, col_num_reviews, List.mem_cons]
  norm_num [theOrdinarySerum]

/-- The first row of the embedded catalog, used as a concrete witness
input. -/
def fentyFoundation : Product :=
  ⟨"Fenty Beauty Foundation", "Fenty Beauty", "Face", 38, 4.5, 15234⟩

/-- C1 counterexample: the mean price of the embedded catalog is
1583/40 = 39.575 dollars, which a two-decimal report prints as $39.58 (or
$39.57), not ≈ $38.97 as claimed; the catalog moreover has 40 rows, not
39. -/
theorem mean_price_not_approx_38_97 :
    sephoraRows.length = 40 ∧
    pandasMean (sephoraRows.map Product.priceQ) = some (1583/40) ∧
    ¬ approx2 (1583/40) 38.97 := by
  refine ⟨by decide, ?_, ?_⟩
  · norm_num [sephoraRows, buildRows, col_product_name, col_brand, col_category, col_price,
      col_rating, col_num_reviews, pandasMean, Product.priceQ]
    exact fun h => List.noConfusion h
  · norm_num [approx2, abs_le]

/-- C1 amended: on the embedded 40-row catalog, `summary_statistics`
reports mean price 1583/40 ≈ $39.58, mean rating 891/200 ≈ 4.46, and the
best-value row ("value_score".idxmax) is "The Ordinary Serum" with price
$7, rating 4.4 and value_score 44/7 ≈ 6.29, the maximum over all rows. -/
theorem summary_statistics_embedded_values :
    sephoraRows.length = 40 ∧
    pandasMean (sephoraRows.map Product.priceQ) = some (1583/40) ∧
    approx2 (1583/40) 39.58 ∧
    pandasMean (sephoraRows.map Product.rating) = some (891/200) ∧
    approx2 (891/200) 4.46 ∧
    argmaxF Product.value_score sephoraRows = some theOrdinarySerum ∧
    theOrdinarySerum.product_name = "The Ordinary Serum" ∧
    theOrdinarySerum.price = 7 ∧
    theOrdinarySerum.rating = 4.4 ∧
    theOrdinarySerum.value_score = 44/7 ∧
    approx2 (44/7) 6.29 ∧
    ∀ p ∈ sephoraRows, p.value_score ≤ 44/7 := by
  have hargmax : argmaxF Product.value_score sephoraRows = some theOrdinarySerum := by
    norm_num [sephoraRows, buildRows, col_product_name, col_brand, col_category, col_price,
      col_rating, col_num_reviews, argmaxF, Product.value_score, Product.priceQ, List.foldl,
      theOrdinarySerum]
  have hserum : theOrdinarySerum.value_score = 44/7 := by
    norm_num [Product.value_score, Product.priceQ, theOrdinarySerum]
  refine ⟨by decide, ?_, ?_, ?_, ?_, hargmax, rfl, rfl, rfl, hserum, ?_, ?_⟩
  · norm_num [sephoraRows, buildRows, col_product_name, col_brand, col_category, col_price,
      col_rating, col_num_reviews, pandasMean, Product.priceQ]
    exact fun h => List.noConfusion h
  · norm_num [approx2, abs_le]
  · norm_num [sephoraRows, buildRows, col_product_name, col_brand, col_category, col_price,
      col_rating, col_num_reviews, pandasMean]
    exact fun h => List.noConfusion h
  · norm_num [approx2, abs_le]
  · norm_num [approx2, abs_le]
  · intro p hp
    have := argmaxF_is_max hargmax p hp
    rwa [hserum] at this

/-- Witness for `summary_statistics_embedded_values`: its per-row maximum
clause applied at the first catalog row. -/
theorem summary_statistics_embedded_values_witness :
    fentyFoundation.value_score ≤ 44/7 := by
  refine summary_statistics_embedded_values.2.2.2.2.2.2.2.2.2.2.2 fentyFoundation ?_
  simp only [sephoraRows, buildRows, col_product_name, col_brand, col_category, col_price,
    col_rating, col_num_reviews, List.mem_cons]
  norm_num [fentyFoundation]

/-- Boolean check that a list of strings is strictly ascending in
code-point order. -/
def strictSorted : List String → Bool
  | [] => true
  | [_] => true
  | a :: b :: rest => decide (strLt a b) && strictSorted (b :: rest)

theorem strictSorted_iff_chain' : ∀ l : List String, strictSorted l = true ↔ List.Chain' strLt l := by
  intro l
  induction l with
  | nil => simp [strictSorted]
  | cons a t ih =>
      cases t with
      | nil => simp [strictSorted]
      | cons b rest =>
          simp only [strictSorted, Bool.and_eq_true, decide_eq_true_eq, List.chain'_cons, ih]

/-- C3 counterexample: on the embedded catalog the distinct categories in
first-appearance order are Face, Lips, Eyes, Skincare, but
`category_analysis` iterates its `groupby` table in pandas' sorted key
order Eyes, Face, Lips, Skincare — alphabetical, not first-encounter. -/
theorem category_iteration_not_first_encounter :
    distinctInOrder (sephoraRows.map Product.category) = ["Face", "Lips", "Eyes", "Skincare"] ∧
    (category_table sephoraRows).map CategoryRow.category = ["Eyes", "Face", "Lips", "Skincare"] ∧
    (category_table sephoraRows).map CategoryRow.category ≠
      distinctInOrder (sephoraRows.map Product.category) := by
  refine ⟨by decide, by decide, by decide⟩

/-- C3 amended: `category_analysis` iterates the distinct categories in
ascending lexicographic order (pandas `groupby` sorts its keys), not
first-appearance order; the most-frequent category is Face by a strict
margin (17 rows against 7, 8 and 8), so the `value_counts` tie-break is
not exercised; the highest-mean-rating category is Eyes, chosen by
`idxmax` over the alphabetically ordered group means (so its ties, if any,
would break alphabetically). -/
theorem category_analysis_order_and_argmaxes :
    groupbyKeys (sephoraRows.map Product.category) = ["Eyes", "Face", "Lips", "Skincare"] ∧
    List.Chain' strLt (groupbyKeys (sephoraRows.map Product.category)) ∧
    most_products sephoraRows = some "Face" ∧
    countOccur (sephoraRows.map Product.category) "Face" = 17 ∧
    countOccur (sephoraRows.map Product.category) "Eyes" = 7 ∧
    countOccur (sephoraRows.map Product.category) "Lips" = 8 ∧
    countOccur (sephoraRows.map Product.category) "Skincare" = 8 ∧
    highest_rated_category sephoraRows = some "Eyes" := by
  refine ⟨by decide, (strictSorted_iff_chain' _).mp (by decide), by decide, by decide, by decide,
    by decide, by decide, ?_⟩
  have hE : (sephoraRows.filter (fun p => p.category = "Eyes")).map Product.rating =
      [4.3, 4.5, 4.8, 4.4, 4.5, 4.7, 4.6] := rfl
  have hF : (sephoraRows.filter (fun p => p.category = "Face")).map Product.rating =
      [4.5, 4.6, 4.7, 4.5, 4.5, 4.4, 4.4, 4.5, 4.4, 4.6, 4.5, 4.3, 4.4, 4.5, 4.6, 4.5, 4.5] := rfl
  have hL : (sephoraRows.filter (fun p => p.category = "Lips")).map Product.rating =
      [4.4, 4.6, 4.3, 4.4, 4.5, 4.4, 4.3, 4.6] := rfl
  have hS : (sephoraRows.filter (fun p => p.category = "Skincare")).map Product.rating =
      [4.4, 4.3, 4.5, 4.2, 4.1, 4.5, 4.3, 4.2] := rfl
  have mE : meanQ ((sephoraRows.filter (fun p => p.category = "Eyes")).map Product.rating) = 159/35 := by
    rw [hE]; norm_num [meanQ]
  have mF : meanQ ((sephoraRows.filter (fun p => p.category = "Face")).map Product.rating) = 382/85 := by
    rw [hF]; norm_num [meanQ]
  have mL : meanQ ((sephoraRows.filter (fun p => p.category = "Lips")).map Product.rating) = 71/16 := by
    rw [hL]; norm_num [meanQ]
  have mS : meanQ ((sephoraRows.filter (fun p => p.category = "Skincare")).map Product.rating) = 69/16 := by
    rw [hS]; norm_num [meanQ]
  have hkeys : groupbyKeys (sephoraRows.map Product.category) = ["Eyes", "Face", "Lips", "Skincare"] := by
    decide
  unfold highest_rated_category
  rw [hkeys]
  norm_num [argmaxF, List.foldl, mE, mF, mL, mS]

instance keyRel_isTotal (f : Product → ℚ) : IsTotal (ℕ × Product) (keyRel f) := by
  refine ⟨fun a b => ?_⟩
  rcases lt_trichotomy (f a.2) (f b.2) with h | h | h
  · exact Or.inr (Or.inl h)
  · rcases le_total a.1 b.1 with hi | hi
    · exact Or.inl (Or.inr ⟨h, hi⟩)
    · exact Or.inr (Or.inr ⟨h.symm, hi⟩)
  · exact Or.inl (Or.inl h)

instance keyRel_isTrans (f : Product → ℚ) : IsTrans (ℕ × Product) (keyRel f) := by
  refine ⟨fun a b c hab hbc => ?_⟩
  rcases hab with h1 | ⟨e1, i1⟩ <;> rcases hbc with h2 | ⟨e2, i2⟩
  · exact Or.inl (lt_trans h2 h1)
  · exact Or.inl (by rw [← e2]; exact h1)
  · exact Or.inl (by rw [e1]; exact h2)
  · exact Or.inr ⟨e1.trans e2, le_trans i1 i2⟩

/-- C8: `top_products`' rating table, `self.data.nlargest(5, 'rating')`
generalized to any catalog and any `n`: the returned sequence is
non-increasing in rating, its length is `min n catalog.size`, and rows
with equal rating appear in catalog insertion order (pandas `nlargest`
keeps first occurrences — a stable descending sort). -/
theorem top_products_rating_spec (rows : List Product) (n : ℕ) :
    ((nlargest n Product.rating rows).map (fun x => x.2.rating)).Sorted (· ≥ ·) ∧
    (nlargest n Product.rating rows).length = min n rows.length ∧
    (nlargest n Product.rating rows).Pairwise
      (fun a b => a.2.rating = b.2.rating → a.1 ≤ b.1) := by
  have hsorted : List.Sorted (keyRel Product.rating)
      (List.insertionSort (keyRel Product.rating) rows.enum) :=
    List.sorted_insertionSort _ _
  have htake : (nlargest n Product.rating rows).Pairwise (keyRel Product.rating) :=
    List.Pairwise.sublist (List.take_sublist n _) hsorted
  refine ⟨?_, ?_, ?_⟩
  · refine List.pairwise_map.mpr (htake.imp ?_)
    intro a b hab
    rcases hab with h | ⟨e, _⟩
    · exact le_of_lt h
    · exact e.ge
  · simp [nlargest, List.length_take, List.length_insertionSort, List.enum_length]
  · refine htake.imp ?_
    intro a b hab
    rcases hab with h | ⟨_, i⟩
    · exact fun e => absurd h (by rw [e]; exact lt_irrefl _)
    · exact fun _ => i

/-- `generate_insights` succeeds on a non-empty catalog precisely when the
rating ≥ 4.5 subset is non-empty: its only remaining failure path is the
`mode()[0]` lookup on that subset. -/
theorem generate_insights_ok_iff {rows : List Product} (h : rows ≠ []) :
    (∃ r, generate_insights rows = Except.ok r) ↔
      rows.filter (fun p => (4.5 : ℚ) ≤ p.rating) ≠ [] := by
  have hlen : ¬(rows.length = 0) := by simpa [List.length_eq_zero] using h
  simp only [generate_insights, if_neg hlen]
  cases hm : (seriesMode ((rows.filter (fun p => (4.5 : ℚ) ≤ p.rating)).map Product.category)).head? with
  | none =>
      simp only [hm]
      constructor
      · rintro ⟨r, hr⟩
        cases hr
      · intro hf
        exfalso
        have hsm : seriesMode ((rows.filter (fun p => (4.5 : ℚ) ≤ p.rating)).map Product.category) ≠ [] :=
          seriesMode_ne_nil (by simpa [List.map_eq_nil_iff] using hf)
        rw [List.head?_eq_none_iff] at hm
        exact hsm hm
  | some mc =>
      simp only [hm]
      constructor
      · rintro ⟨r, _⟩ hf
        rw [hf] at hm
        simp [seriesMode_nil] at hm
      · intro _
        exact ⟨_, rfl⟩

/-- A probe row rated below 4.5, so that the rating ≥ 4.5 subset of the
singleton catalog `[probeLowRated]` is empty. -/
def probeLowRated : Product := ⟨"probe low", "no brand", "Face", 10, 4.0, 5⟩

/-- A probe row rated 4.6 with a low price, so that `[probeHighRated]` has
an empty price > 50 subset but a non-empty rating ≥ 4.5 subset. -/
def probeHighRated : Product := ⟨"probe high", "no brand", "Face", 10, 4.6, 5⟩

/-- C5 counterexample: on a catalog whose rating ≥ 4.5 subset is empty,
`generate_insights` does not report "no data" — the `mode()[0]` lookup of
line 331 indexes an empty mode and the computation fails with a KeyError. -/
theorem insights_error_on_empty_high_rated :
    generate_insights [probeLowRated] = Except.error "KeyError: 0" := by
  have hf : [probeLowRated].filter (fun p => (4.5 : ℚ) ≤ p.rating) = [] := by
    norm_num [List.filter_cons, probeLowRated]
  simp only [generate_insights]
  rw [if_neg (by simp), hf]
  simp [seriesMode_nil]

/-- C5 amended: `generate_insights` has no empty-subset guard and never
reports "no data": an empty subset flows into `Series.mean()` as a NaN
(`none`) entry of the report; on a non-empty catalog the computation
raises (KeyError) exactly when the rating ≥ 4.5 subset is empty, because
of the unguarded `mode()[0]`; and on an empty catalog it raises a
ZeroDivisionError at `len(sweet_spot)/len(self.data)`. -/
theorem insights_unguarded_empty_subsets :
    (∀ rows : List Product, rows ≠ [] →
      ((∃ r, generate_insights rows = Except.ok r) ↔
        rows.filter (fun p => (4.5 : ℚ) ≤ p.rating) ≠ [])) ∧
    (∀ rows : List Product, ∀ r : InsightReport, generate_insights rows = Except.ok r →
      rows.filter (fun p => 50 < p.price) = [] → r.expensiveAvgRating = none) ∧
    generate_insights [] = Except.error "ZeroDivisionError: division by zero" := by
  refine ⟨fun rows h => generate_insights_ok_iff h, ?_, rfl⟩
  intro rows r hok hemp
  simp only [generate_insights] at hok
  by_cases hlen : rows.length = 0
  · rw [if_pos hlen] at hok
    cases hok
  · rw [if_neg hlen] at hok
    cases hm : (seriesMode ((rows.filter (fun p => (4.5 : ℚ) ≤ p.rating)).map Product.category)).head? with
    | none =>
        rw [hm] at hok
        cases hok
    | some mc =>
        rw [hm] at hok
        cases hok
        show pandasMean ((rows.filter (fun p => 50 < p.price)).map Product.rating) = none
        rw [hemp]
        simp [pandasMean]

/-- Witness for `insights_unguarded_empty_subsets`: on the singleton
catalog `[probeHighRated]` the report is produced and its price > 50
mean is the NaN sentinel; on `[probeLowRated]` no report exists. -/
theorem insights_unguarded_empty_subsets_witness :
    (∃ r, generate_insights [probeHighRated] = Except.ok r ∧ r.expensiveAvgRating = none) ∧
    ¬(∃ r, generate_insights [probeLowRated] = Except.ok r) := by
  constructor
  · have hne : [probeHighRated].filter (fun p => (4.5 : ℚ) ≤ p.rating) ≠ [] := by
      norm_num [List.filter_cons, probeHighRated]
    obtain ⟨r, hr⟩ := (insights_unguarded_empty_subsets.1 [probeHighRated] (by simp)).mpr hne
    refine ⟨r, hr, insights_unguarded_empty_subsets.2.1 [probeHighRated] r hr ?_⟩
    norm_num [List.filter_cons, probeHighRated]
  · intro hex
    have h := (insights_unguarded_empty_subsets.1 [probeLowRated] (by simp)).mp hex
    exact h (by norm_num [List.filter_cons, probeLowRated])

/-- The most expensive row of the embedded catalog, used as a concrete
witness input. -/
def laMerCream : Product := ⟨"La Mer Cream", "La Mer", "Skincare", 185, 4.1, 3456⟩

/-- C9: every embedded price lies in [7, 185], hence strictly inside
(0, 200]; therefore the value-score division is defined on every row,
every row receives one of the four `price_range` buckets (none is
unbucketed), and the per-bucket percentages of `price_analysis`
(5 + 22 + 11 + 2 rows out of 40) sum to exactly 100%. -/
theorem embedded_prices_in_range :
    (∀ p ∈ sephoraRows, 7 ≤ p.price ∧ p.price ≤ 185) ∧
    (∀ p ∈ sephoraRows, 0 < p.priceQ ∧ p.priceQ ≤ 200 ∧ p.priceQ / 10 ≠ 0) ∧
    (∀ p ∈ sephoraRows, (p.price_range).isSome = true) ∧
    bucketCount sephoraRows PriceBucket.Budget = 5 ∧
    bucketCount sephoraRows PriceBucket.MidRange = 22 ∧
    bucketCount sephoraRows PriceBucket.Premium = 11 ∧
    bucketCount sephoraRows PriceBucket.Luxury = 2 ∧
    bucketPercent sephoraRows PriceBucket.Budget + bucketPercent sephoraRows PriceBucket.MidRange +
      bucketPercent sephoraRows PriceBucket.Premium + bucketPercent sephoraRows PriceBucket.Luxury
      = 100 := by
  have hrange : ∀ p ∈ sephoraRows, 7 ≤ p.price ∧ p.price ≤ 185 := by decide
  have hbucketN : ∀ p ∈ sephoraRows, (priceRangeN p.price).isSome = true := by decide
  have hB : bucketCount sephoraRows PriceBucket.Budget = 5 := by decide
  have hM : bucketCount sephoraRows PriceBucket.MidRange = 22 := by decide
  have hP : bucketCount sephoraRows PriceBucket.Premium = 11 := by decide
  have hL : bucketCount sephoraRows PriceBucket.Luxury = 2 := by decide
  have hlen : sephoraRows.length = 40 := by decide
  refine ⟨hrange, ?_, ?_, hB, hM, hP, hL, ?_⟩
  · intro p hp
    obtain ⟨h7, h185⟩ := hrange p hp
    have h0 : (0 : ℚ) < p.priceQ := by
      rw [Product.priceQ]
      exact_mod_cast lt_of_lt_of_le (by norm_num) h7
    have h200 : p.priceQ ≤ 200 := by
      rw [Product.priceQ]
      exact_mod_cast le_trans h185 (by norm_num)
    exact ⟨h0, h200, div_ne_zero (ne_of_gt h0) (by norm_num)⟩
  · intro p hp
    rw [Product.price_range, Product.priceQ, priceRange_natCast]
    exact hbucketN p hp
  · norm_num [bucketPercent, hlen, hB, hM, hP, hL]

/-- Witness for `embedded_prices_in_range` at the "La Mer Cream" row. -/
theorem embedded_prices_in_range_witness :
    (7 ≤ laMerCream.price ∧ laMerCream.price ≤ 185) ∧
    (laMerCream.price_range).isSome = true := by
  have hmem : laMerCream ∈ sephoraRows := by
    simp only [sephoraRows, buildRows, col_product_name, col_brand, col_category, col_price,
      col_rating, col_num_reviews, List.mem_cons]
    norm_num [laMerCream]
  exact ⟨embedded_prices_in_range.1 laMerCream hmem, embedded_prices_in_range.2.2.1 laMerCream hmem⟩

/-- C10: on the embedded catalog each subset `generate_insights` filters —
price > 50, price ≤ 30, the 20 ≤ price ≤ 40 sweet spot, the Skincare and
makeup category sides, and the rating ≥ 4.5 rows — is non-empty, so every
unguarded mean is defined (not NaN), the modal-category lookup sees the
non-empty mode (Face), and `generate_insights` completes without error. -/
theorem embedded_insight_subsets_nonempty :
    sephoraRows.filter (fun p => 50 < p.price) ≠ [] ∧
    sephoraRows.filter (fun p => p.price ≤ 30) ≠ [] ∧
    sephoraRows.filter (fun p => 20 ≤ p.price ∧ p.price ≤ 40) ≠ [] ∧
    sephoraRows.filter (fun p => p.category = "Skincare") ≠ [] ∧
    sephoraRows.filter (fun p => p.category = "Face" ∨ p.category = "Eyes" ∨ p.category = "Lips") ≠ [] ∧
    sephoraRows.filter (fun p => (4.5 : ℚ) ≤ p.rating) ≠ [] ∧
    pandasMean ((sephoraRows.filter (fun p => 50 < p.price)).map Product.rating) ≠ none ∧
    pandasMean ((sephoraRows.filter (fun p => p.price ≤ 30)).map Product.rating) ≠ none ∧
    pandasMean ((sephoraRows.filter (fun p => p.category = "Skincare")).map Product.priceQ) ≠ none ∧
    pandasMean ((sephoraRows.filter (fun p => 20 ≤ p.price ∧ p.price ≤ 40)).map Product.rating) ≠ none ∧
    pandasMean ((sephoraRows.filter (fun p => (4.5 : ℚ) ≤ p.rating)).map Product.priceQ) ≠ none ∧
    (seriesMode ((sephoraRows.filter (fun p => (4.5 : ℚ) ≤ p.rating)).map Product.category)).head?
      = some "Face" ∧
    ∃ r, generate_insights sephoraRows = Except.ok r := by
  have hmean : ∀ (f : Product → ℚ) (l : List Product), l ≠ [] → pandasMean (l.map f) ≠ none := by
    intro f l hl h
    exact hl (List.map_eq_nil_iff.mp (pandasMean_eq_none.mp h))
  have h1 : sephoraRows.filter (fun p => 50 < p.price) ≠ [] := by decide
  have h2 : sephoraRows.filter (fun p => p.price ≤ 30) ≠ [] := by decide
  have h3 : sephoraRows.filter (fun p => 20 ≤ p.price ∧ p.price ≤ 40) ≠ [] := by decide
  have h4 : sephoraRows.filter (fun p => p.category = "Skincare") ≠ [] := by decide
  have h5 : sephoraRows.filter
      (fun p => p.category = "Face" ∨ p.category = "Eyes" ∨ p.category = "Lips") ≠ [] := by decide
  have hcats : (sephoraRows.filter (fun p => (4.5 : ℚ) ≤ p.rating)).map Product.category =
      ["Face", "Face", "Face", "Face", "Face", "Lips", "Skincare", "Eyes", "Eyes", "Face", "Face",
       "Face", "Eyes", "Face", "Eyes", "Eyes", "Skincare", "Lips", "Face", "Face", "Face", "Lips"] := by
    norm_num [sephoraRows, buildRows, col_product_name, col_brand, col_category, col_price,
      col_rating, col_num_reviews, List.filter]
  have h6 : sephoraRows.filter (fun p => (4.5 : ℚ) ≤ p.rating) ≠ [] := by
    intro h
    rw [h] at hcats
    cases hcats
  refine ⟨h1, h2, h3, h4, h5, h6, hmean _ _ h1, hmean _ _ h2, hmean _ _ h4, hmean _ _ h3,
    hmean _ _ h6, ?_, ?_⟩
  · rw [hcats]
    decide
  · refine (generate_insights_ok_iff ?_).mpr h6
    decide
